import Mathlib

/-!
Shallow embedding of the `ConnectionManager` orchestrator from
`src/comms/src/connection_manager/manager.rs` of the tari repository.

Modelling conventions:
* Opaque collaborator types (`NodeId`, `Multiaddr`, `ProtocolId`, `Substream`,
  `PeerConnection`, peer-manager errors, oneshot reply channels) are modelled
  as `Nat`/`String` placeholders; the manager only moves them around.
* Asynchronous effects (channel sends, event publication, task spawns, log
  statements) are recorded as an `CMAction` trace; the state that the manager
  mutates (`listener_info`, `listening_notifiers`) is an explicit `CMState`.
* The environment `Env` fixes the outcome of each collaborator call: whether
  the primary / auxiliary listener binds, whether the mpsc send to the Dialer
  succeeds, the result of `PeerManager::find_by_node_id`, whether
  `Protocols::notify` finds a handler, and the broadcast subscriber count.
* The `futures::select!` loop of `run` is driven by a finite list of
  `LoopInput`s (internal events, external requests, or the shutdown signal),
  mirroring that the loop consumes one message per iteration and breaks on
  shutdown.
-/

abbrev NodeId := Nat

abbrev Multiaddr := String

abbrev ProtocolId := Nat

abbrev Substream := Nat

abbrev ReplyId := Nat

abbrev PeerManagerError := String

abbrev PeerConnection := Nat

/-- Remote identity record, looked up in the peer manager by `NodeId`. -/
structure Peer where
  node_id : NodeId
deriving Repr, DecidableEq

/-- Error type of the connection manager (`ConnectionManagerError`); only the
variants exercised by `manager.rs` are modelled: wrapping of a peer-manager
error, and a listener bind failure. -/
inductive ConnectionManagerError where
  | peerManagerError (err : PeerManagerError)
  | listenFailed (reason : String)
deriving Repr, DecidableEq

/-- Placeholder for `NodeNetworkInfo` (defined outside `manager.rs`); its
fields are irrelevant to the manager logic. -/
structure NodeNetworkInfo where
  info : Unit := ()
deriving Repr, DecidableEq

/-- `ConnectionManagerConfig` from `manager.rs` lines 89-113.  `Duration` is
modelled in whole seconds; CIDR blocks as strings. -/
structure ConnectionManagerConfig where
  listener_address : Multiaddr
  max_dial_attempts : Nat
  max_simultaneous_inbound_connects : Nat
  allow_test_addresses : Bool
  network_info : NodeNetworkInfo
  time_to_first_byte : Nat
  liveness_max_sessions : Nat
  liveness_cidr_allowlist : List String
  auxilary_tcp_listener_address : Option Multiaddr
deriving Repr, DecidableEq

/-- `impl Default for ConnectionManagerConfig` (lines 115-138), with the
`cfg(not(test))` alternatives: listener address `/ip4/0.0.0.0/tcp/7898` and
`allow_test_addresses = false`. -/
def ConnectionManagerConfig.default : ConnectionManagerConfig :=
  { listener_address := "/ip4/0.0.0.0/tcp/7898"
    max_dial_attempts := 3
    max_simultaneous_inbound_connects := 20
    network_info := {}
    allow_test_addresses := false
    liveness_max_sessions := 0
    time_to_first_byte := 7
    liveness_cidr_allowlist := ["127.0.0.1/32"]
    auxilary_tcp_listener_address := none }

/-- Container struct for the listener addresses (lines 141-145). -/
structure ListenerInfo where
  bind_address : Multiaddr
  aux_bind_address : Option Multiaddr
deriving Repr, DecidableEq

/-- `ConnectionManagerEvent` (lines 59-69). -/
inductive ConnectionManagerEvent where
  | peerConnected (conn : PeerConnection)
  | peerDisconnected (node_id : NodeId)
  | peerConnectFailed (node_id : NodeId) (err : ConnectionManagerError)
  | peerInboundConnectFailed (err : ConnectionManagerError)
  | newInboundSubstream (node_id : NodeId) (protocol : ProtocolId) (stream : Substream)
deriving Repr, DecidableEq

/-- True exactly on the `NewInboundSubstream` variant. -/
def ConnectionManagerEvent.isSubstream : ConnectionManagerEvent → Bool
  | .newInboundSubstream _ _ _ => true
  | _ => false

/-- `DialerRequest` variants sent from the manager to the Dialer task. -/
inductive DialerRequest where
  | dial (peer : Peer) (reply : ReplyId)
  | cancelPendingDial (node_id : NodeId)
deriving Repr, DecidableEq

/-- `ConnectionManagerRequest` consumed from the external request queue. -/
inductive ConnectionManagerRequest where
  | dialPeer (node_id : NodeId) (reply : ReplyId)
  | cancelDial (node_id : NodeId)
  | notifyListening (reply : ReplyId)
deriving Repr, DecidableEq

deriving instance DecidableEq for Except

/-- Observable side effects of the manager, in program order. -/
inductive CMAction where
  | primaryBound (addr : Multiaddr)
  | auxBound (addr : Multiaddr)
  | dialerStarted
  | loopEntered
  | sendListenerReply (reply : ReplyId) (info : ListenerInfo)
  | sendDialReply (reply : ReplyId) (result : Except ConnectionManagerError PeerConnection)
  | forwardToDialer (req : DialerRequest)
  | publishExternal (event : ConnectionManagerEvent)
  | notifyProtocol (protocol : ProtocolId) (node_id : NodeId) (stream : Substream)
  | logError (msg : String)
  | panicked (msg : String)
deriving Repr, DecidableEq

/-- True on actions that send a value on some caller-visible reply channel. -/
def CMAction.isReply : CMAction → Bool
  | .sendListenerReply _ _ => true
  | .sendDialReply _ _ => true
  | _ => false

/-- True on the external broadcast publication action. -/
def CMAction.isPublish : CMAction → Bool
  | .publishExternal _ => true
  | _ => false

/-- True on the mpsc send of a request to the Dialer task. -/
def CMAction.isForward : CMAction → Bool
  | .forwardToDialer _ => true
  | _ => false

/-- Outcomes of every collaborator call the manager makes. -/
structure Env where
  primary_listen : Except ConnectionManagerError Multiaddr
  aux_listen : Except ConnectionManagerError Multiaddr
  dialer_send_ok : Bool
  find_by_node_id : NodeId → Except PeerManagerError Peer
  protocol_notify_ok : ProtocolId → Bool
  subscriber_count : Nat

/-- Mutable state of the `ConnectionManager` struct relevant to orchestration:
`listener_info`, `listening_notifiers`, and whether an auxiliary listener was
constructed in `new` (field `aux_listener`). -/
structure CMState where
  listener_info : Option ListenerInfo
  listening_notifiers : List ReplyId
  aux_listener : Option Unit
deriving Repr, DecidableEq

/-- The slice of `ConnectionManager::new` (lines 180-245) that initialises the
orchestration state: no listener info, no queued notifiers, and an auxiliary
listener exactly when `config.auxilary_tcp_listener_address` is set. -/
def ConnectionManager.new (config : ConnectionManagerConfig) : CMState :=
  { listener_info := none
    listening_notifiers := []
    aux_listener := config.auxilary_tcp_listener_address.map fun _ => () }

/-- `send_dialer_request` (lines 413-418): send on `dialer_tx`; a failed send
is only logged. -/
def send_dialer_request (env : Env) (req : DialerRequest) : List CMAction :=
  if env.dialer_send_ok then [.forwardToDialer req]
  else [.logError "Failed to send request to dialer"]

/-- `dial_peer` (lines 425-440): look the peer up; on success forward a
`DialerRequest::Dial` carrying the reply channel; on failure log a warning and
send the wrapped peer-manager error on the reply channel. -/
def dial_peer (env : Env) (st : CMState) (node_id : NodeId) (reply : ReplyId) :
    CMState × List CMAction :=
  match env.find_by_node_id node_id with
  | .ok peer => (st, send_dialer_request env (.dial peer reply))
  | .error err =>
      (st, [.logError "Failed to fetch peer to dial",
            .sendDialReply reply (.error (.peerManagerError err))])

/-- `handle_request` (lines 349-371). -/
def handle_request (env : Env) (st : CMState) :
    ConnectionManagerRequest → CMState × List CMAction
  | .dialPeer node_id reply => dial_peer env st node_id reply
  | .cancelDial node_id =>
      if env.dialer_send_ok then
        (st, [.forwardToDialer (.cancelPendingDial node_id)])
      else
        (st, [.logError "Failed to send cancel dial request to dialer"])
  | .notifyListening reply =>
      match st.listener_info with
      | some info => (st, [.sendListenerReply reply info])
      | none => ({ st with listening_notifiers := st.listening_notifiers ++ [reply] }, [])

/-- Result of `broadcast::Sender::send`: an error exactly when there are zero
subscribers, carrying nothing the manager uses. -/
def broadcast_send (subscriber_count : Nat) : Except Unit Nat :=
  if subscriber_count = 0 then .error () else .ok subscriber_count

/-- `publish_event` (lines 420-423): the result of the broadcast send is bound
to `_` and discarded, so a zero-subscriber send is not an error. -/
def publish_event (env : Env) (event : ConnectionManagerEvent) : List CMAction :=
  let _ := broadcast_send env.subscriber_count
  [.publishExternal event]

/-- `handle_event` (lines 383-411): a `NewInboundSubstream` is dispatched to
the protocol registry (a failed `notify` is only logged); every other event is
republished on the external broadcast channel. -/
def handle_event (env : Env) (st : CMState) :
    ConnectionManagerEvent → CMState × List CMAction
  | .newInboundSubstream node_id protocol stream =>
      if env.protocol_notify_ok protocol then
        (st, [.notifyProtocol protocol node_id stream])
      else
        (st, [.notifyProtocol protocol node_id stream,
              .logError "Error sending NewSubstream notification"])
  | event => (st, publish_event env event)

/-- `notify_all_ready` (lines 373-381): drain `listening_notifiers`, sending a
clone of the (expected-present) `ListenerInfo` to each. -/
def notify_all_ready (st : CMState) : CMState × List CMAction :=
  match st.listener_info with
  | some info =>
      ({ st with listening_notifiers := [] },
       st.listening_notifiers.map fun r => .sendListenerReply r info)
  | none =>
      (st, [.panicked "notify_all_ready called before listeners were successfully bound"])

/-- `run_listeners` (lines 310-337): bind the primary listener, returning its
error on failure; then, if an auxiliary listener exists, bind it, propagating
its error with the question-mark operator. -/
def run_listeners (env : Env) (st : CMState) :
    Except ConnectionManagerError (ListenerInfo × List CMAction) :=
  match env.primary_listen with
  | .error err => .error err
  | .ok addr =>
      match st.aux_listener with
      | none => .ok ({ bind_address := addr, aux_bind_address := none }, [.primaryBound addr])
      | some _ =>
          match env.aux_listen with
          | .error err => .error err
          | .ok aux_addr =>
              .ok ({ bind_address := addr, aux_bind_address := some aux_addr },
                   [.primaryBound addr, .auxBound aux_addr])

/-- `run_dialer` (lines 339-347): spawn the Dialer task. -/
def run_dialer : List CMAction := [.dialerStarted]

/-- One message drawn by the `futures::select!` loop in `run`. -/
inductive LoopInput where
  | internalEvent (event : ConnectionManagerEvent)
  | request (req : ConnectionManagerRequest)
  | shutdown
deriving Repr, DecidableEq

/-- The select loop of `run` (lines 292-307), driven by a finite input list:
internal events go to `handle_event`, requests to `handle_request`, and the
shutdown signal breaks the loop. -/
def run_loop (env : Env) : CMState → List LoopInput → CMState × List CMAction
  | st, [] => (st, [])
  | st, .shutdown :: _ => (st, [])
  | st, .internalEvent e :: rest =>
      let p := handle_event env st e
      let q := run_loop env p.1 rest
      (q.1, p.2 ++ q.2)
  | st, .request r :: rest =>
      let p := handle_request env st r
      let q := run_loop env p.1 rest
      (q.1, p.2 ++ q.2)

/-- The sequence of states at the head of each select-loop iteration, starting
from the loop entry state. -/
def run_loop_states (env : Env) : CMState → List LoopInput → List CMState
  | st, [] => [st]
  | st, .shutdown :: _ => [st]
  | st, .internalEvent e :: rest => st :: run_loop_states env (handle_event env st e).1 rest
  | st, .request r :: rest => st :: run_loop_states env (handle_request env st r).1 rest

/-- `run` (lines 260-308): bind the listeners (returning immediately, after a
log line, when that fails); record the listener info; spawn the Dialer;
resolve queued listening notifiers; then enter the select loop. -/
def run (env : Env) (st : CMState) (inputs : List LoopInput) : CMState × List CMAction :=
  match run_listeners env st with
  | .error _ =>
      (st, [.logError "Failed to start listeners. Connection manager is quitting."])
  | .ok r =>
      let st1 := { st with listener_info := some r.1 }
      let p := notify_all_ready st1
      let q := run_loop env p.1 inputs
      (q.1, r.2 ++ run_dialer ++ p.2 ++ [.loopEntered] ++ q.2)

/-! Concrete environments and states used by the witness theorems. -/

/-- Environment in which the primary listener bind fails. -/
def envPrimaryFail : Env :=
  { primary_listen := .error (.listenFailed "address in use")
    aux_listen := .ok "/ip4/127.0.0.1/tcp/9099"
    dialer_send_ok := true
    find_by_node_id := fun _ => .error "peer not found"
    protocol_notify_ok := fun _ => true
    subscriber_count := 1 }

/-- Environment in which the primary bind succeeds but the auxiliary bind
fails. -/
def envAuxFail : Env :=
  { primary_listen := .ok "/ip4/0.0.0.0/tcp/7898"
    aux_listen := .error (.listenFailed "aux address in use")
    dialer_send_ok := true
    find_by_node_id := fun _ => .error "peer not found"
    protocol_notify_ok := fun _ => true
    subscriber_count := 0 }

/-- Environment in which every collaborator call succeeds. -/
def envOk : Env :=
  { primary_listen := .ok "/ip4/0.0.0.0/tcp/7898"
    aux_listen := .ok "/ip4/127.0.0.1/tcp/9099"
    dialer_send_ok := true
    find_by_node_id := fun n => .ok { node_id := n }
    protocol_notify_ok := fun _ => true
    subscriber_count := 1 }

/-- Environment in which the mpsc send to the Dialer fails. -/
def envDialerGone : Env :=
  { primary_listen := .ok "/ip4/0.0.0.0/tcp/7898"
    aux_listen := .ok "/ip4/127.0.0.1/tcp/9099"
    dialer_send_ok := false
    find_by_node_id := fun n => .ok { node_id := n }
    protocol_notify_ok := fun _ => false
    subscriber_count := 0 }

/-- State of a manager constructed with an auxiliary listener configured. -/
def stAuxConfigured : CMState :=
  { listener_info := none, listening_notifiers := [], aux_listener := some () }

/-- State of a manager constructed without an auxiliary listener and with two
queued listening notifiers. -/
def stTwoNotifiers : CMState :=
  { listener_info := none, listening_notifiers := [4, 9], aux_listener := none }

/-- C1: if binding the primary listener fails, `run` returns immediately with
only a log line: the state is unchanged, the Dialer is never started, no
request from the request queue is processed (no reply is sent and nothing is
forwarded to the Dialer), and the select loop is never entered. -/
theorem C1_primary_bind_failure_aborts (env : Env) (st : CMState)
    (inputs : List LoopInput) (err : ConnectionManagerError)
    (h : env.primary_listen = .error err) :
    run env st inputs =
      (st, [CMAction.logError "Failed to start listeners. Connection manager is quitting."]) ∧
    CMAction.dialerStarted ∉ (run env st inputs).2 ∧
    CMAction.loopEntered ∉ (run env st inputs).2 ∧
    ((run env st inputs).2.all fun a => !a.isReply && !a.isForward) = true := by
  have hrun : run env st inputs =
      (st, [CMAction.logError "Failed to start listeners. Connection manager is quitting."]) := by
    simp [run, run_listeners, h]
  refine ⟨hrun, ?_, ?_, ?_⟩ <;> rw [hrun] <;>
    simp [CMAction.isReply, CMAction.isForward]

/-- Witness for C1 at a concrete failing environment and a nonempty request
queue. -/
theorem C1_primary_bind_failure_aborts_witness :
    run envPrimaryFail (ConnectionManager.new .default)
        [.request (.dialPeer 1 0), .request (.notifyListening 2)] =
      (ConnectionManager.new .default,
       [CMAction.logError "Failed to start listeners. Connection manager is quitting."]) ∧
    CMAction.dialerStarted ∉
      (run envPrimaryFail (ConnectionManager.new .default)
        [.request (.dialPeer 1 0), .request (.notifyListening 2)]).2 ∧
    CMAction.loopEntered ∉
      (run envPrimaryFail (ConnectionManager.new .default)
        [.request (.dialPeer 1 0), .request (.notifyListening 2)]).2 ∧
    ((run envPrimaryFail (ConnectionManager.new .default)
        [.request (.dialPeer 1 0), .request (.notifyListening 2)]).2.all
      fun a => !a.isReply && !a.isForward) = true :=
  C1_primary_bind_failure_aborts envPrimaryFail (ConnectionManager.new .default)
    [.request (.dialPeer 1 0), .request (.notifyListening 2)]
    (.listenFailed "address in use") rfl

/-- C2 counterexample: with the auxiliary listener configured, a primary bind
that succeeds and an auxiliary bind that fails, `run` never starts the Dialer
and never enters the select loop — so auxiliary bind failure does abort the
manager, refuting that primary bind failure is the only fatal condition. -/
theorem C2_counterexample :
    envAuxFail.primary_listen = .ok "/ip4/0.0.0.0/tcp/7898" ∧
    stAuxConfigured.aux_listener = some () ∧
    envAuxFail.aux_listen = .error (.listenFailed "aux address in use") ∧
    CMAction.loopEntered ∉ (run envAuxFail stAuxConfigured []).2 ∧
    CMAction.dialerStarted ∉ (run envAuxFail stAuxConfigured []).2 := by
  refine ⟨rfl, rfl, rfl, ?_, ?_⟩ <;> decide

/-- C2 amended: when an auxiliary listener is configured and its bind fails
(with the primary bind succeeding), `run` returns immediately exactly as for a
primary bind failure: state unchanged, only a log line, no Dialer start, no
loop entry. -/
theorem C2_aux_bind_failure_is_fatal (env : Env) (st : CMState)
    (inputs : List LoopInput) (addr : Multiaddr) (err : ConnectionManagerError)
    (hp : env.primary_listen = .ok addr)
    (ha : st.aux_listener = some ())
    (he : env.aux_listen = .error err) :
    run env st inputs =
      (st, [CMAction.logError "Failed to start listeners. Connection manager is quitting."]) ∧
    CMAction.dialerStarted ∉ (run env st inputs).2 ∧
    CMAction.loopEntered ∉ (run env st inputs).2 := by
  have hrun : run env st inputs =
      (st, [CMAction.logError "Failed to start listeners. Connection manager is quitting."]) := by
    simp [run, run_listeners, hp, ha, he]
  refine ⟨hrun, ?_, ?_⟩ <;> rw [hrun] <;> simp

/-- Witness for the amended C2 at a concrete environment. -/
theorem C2_aux_bind_failure_is_fatal_witness :
    run envAuxFail stAuxConfigured [.request (.dialPeer 1 0)] =
      (stAuxConfigured,
       [CMAction.logError "Failed to start listeners. Connection manager is quitting."]) ∧
    CMAction.dialerStarted ∉ (run envAuxFail stAuxConfigured [.request (.dialPeer 1 0)]).2 ∧
    CMAction.loopEntered ∉ (run envAuxFail stAuxConfigured [.request (.dialPeer 1 0)]).2 :=
  C2_aux_bind_failure_is_fatal envAuxFail stAuxConfigured [.request (.dialPeer 1 0)]
    "/ip4/0.0.0.0/tcp/7898" (.listenFailed "aux address in use") rfl rfl rfl

/-- C3: handling `CancelDial` never produces an error observable by the
caller: the state is unchanged, no reply action ever occurs (the request
carries no reply channel), and when the forward to the Dialer fails the only
effect is a log line. -/
theorem C3_cancel_dial_never_errors (env : Env) (st : CMState) (node_id : NodeId) :
    (handle_request env st (.cancelDial node_id)).1 = st ∧
    ((handle_request env st (.cancelDial node_id)).2.all fun a => !a.isReply) = true ∧
    (env.dialer_send_ok = false →
      (handle_request env st (.cancelDial node_id)).2 =
        [CMAction.logError "Failed to send cancel dial request to dialer"]) := by
  by_cases h : env.dialer_send_ok <;>
    simp [handle_request, h, CMAction.isReply]

/-- Witness for C3 in the environment whose Dialer channel send fails. -/
theorem C3_cancel_dial_never_errors_witness :
    (handle_request envDialerGone stAuxConfigured (.cancelDial 5)).1 = stAuxConfigured ∧
    ((handle_request envDialerGone stAuxConfigured (.cancelDial 5)).2.all
      fun a => !a.isReply) = true ∧
    (envDialerGone.dialer_send_ok = false →
      (handle_request envDialerGone stAuxConfigured (.cancelDial 5)).2 =
        [CMAction.logError "Failed to send cancel dial request to dialer"]) :=
  C3_cancel_dial_never_errors envDialerGone stAuxConfigured 5

/-- A sample listener info used by witnesses. -/
def infoSample : ListenerInfo :=
  { bind_address := "/ip4/0.0.0.0/tcp/7898", aux_bind_address := none }

/-- A state whose listeners are already bound. -/
def stBound : CMState :=
  { listener_info := some infoSample, listening_notifiers := [4, 9], aux_listener := none }

/-- C4: a `NotifyListening` request is answered immediately with the
`ListenerInfo` when the listeners are bound, and queued otherwise; and
`notify_all_ready` sends every queued reply one identical copy of the same
`ListenerInfo`. -/
theorem C4_notify_listening_replies (env : Env) (st : CMState) (r : ReplyId)
    (info : ListenerInfo) :
    (st.listener_info = some info →
      handle_request env st (.notifyListening r) =
        (st, [CMAction.sendListenerReply r info])) ∧
    (st.listener_info = none →
      handle_request env st (.notifyListening r) =
        ({ st with listening_notifiers := st.listening_notifiers ++ [r] }, [])) ∧
    (st.listener_info = some info →
      notify_all_ready st =
        ({ st with listening_notifiers := [] },
         st.listening_notifiers.map fun q => CMAction.sendListenerReply q info)) := by
  refine ⟨fun h => ?_, fun h => ?_, fun h => ?_⟩ <;>
    simp [handle_request, notify_all_ready, h]

/-- Witness for C4: in a bound state with two queued notifiers, a new request
is answered at once and `notify_all_ready` resolves both queued replies with
the same info. -/
theorem C4_notify_listening_replies_witness :
    handle_request envOk stBound (.notifyListening 7) =
      (stBound, [CMAction.sendListenerReply 7 infoSample]) ∧
    notify_all_ready stBound =
      ({ stBound with listening_notifiers := [] },
       [CMAction.sendListenerReply 4 infoSample, CMAction.sendListenerReply 9 infoSample]) := by
  have h := C4_notify_listening_replies envOk stBound 7 infoSample
  exact ⟨h.1 rfl, by simpa using h.2.2 rfl⟩

/-- C5: for a `DialPeer` request, a failed directory lookup sends exactly the
wrapped directory error on the reply channel at once and forwards nothing to
the Dialer; a successful lookup emits exactly the Dialer forward of the
request (when the channel is up) carrying the reply channel, and the manager
itself never sends on the reply channel. -/
theorem C5_dial_peer_lookup (env : Env) (st : CMState) (node_id : NodeId)
    (r : ReplyId) (err : PeerManagerError) (peer : Peer) :
    (env.find_by_node_id node_id = .error err →
      handle_request env st (.dialPeer node_id r) =
        (st, [CMAction.logError "Failed to fetch peer to dial",
              CMAction.sendDialReply r (.error (.peerManagerError err))]) ∧
      ((handle_request env st (.dialPeer node_id r)).2.all fun a => !a.isForward) = true) ∧
    (env.find_by_node_id node_id = .ok peer →
      handle_request env st (.dialPeer node_id r) =
        (st, send_dialer_request env (.dial peer r)) ∧
      ((send_dialer_request env (.dial peer r)).all fun a => !a.isReply) = true ∧
      (env.dialer_send_ok = true →
        send_dialer_request env (.dial peer r) =
          [CMAction.forwardToDialer (.dial peer r)])) := by
  constructor
  · intro h
    constructor
    · simp [handle_request, dial_peer, h]
    · simp [handle_request, dial_peer, h, CMAction.isForward]
  · intro h
    refine ⟨by simp [handle_request, dial_peer, h], ?_, fun hd => by simp [send_dialer_request, hd]⟩
    by_cases hd : env.dialer_send_ok <;>
      simp [send_dialer_request, hd, CMAction.isReply]

/-- Witness for C5: node 3 is found in `envOk` (forward emitted, no reply from
the manager); in `envNoPeer` below the lookup for node 3 fails and the reply
channel receives the wrapped error. -/
theorem C5_dial_peer_lookup_witness :
    handle_request envOk stBound (.dialPeer 3 11) =
      (stBound, [CMAction.forwardToDialer (.dial { node_id := 3 } 11)]) ∧
    handle_request envPrimaryFail stBound (.dialPeer 3 11) =
      (stBound, [CMAction.logError "Failed to fetch peer to dial",
                 CMAction.sendDialReply 11 (.error (.peerManagerError "peer not found"))]) := by
  have hOk := (C5_dial_peer_lookup envOk stBound 3 11 "peer not found" { node_id := 3 }).2 rfl
  have hErr := (C5_dial_peer_lookup envPrimaryFail stBound 3 11 "peer not found"
    { node_id := 3 }).1 rfl
  exact ⟨by rw [hOk.1]; exact congrArg _ (hOk.2.2 rfl), hErr.1⟩

/-- C6: a `NewInboundSubstream` event is dispatched to the protocol registry,
is never republished on the external broadcast channel, leaves the state
unchanged, and when the protocol has no registered handler the only extra
effect is a log line — no error escapes `handle_event`. -/
theorem C6_inbound_substream_dispatch (env : Env) (st : CMState)
    (node_id : NodeId) (protocol : ProtocolId) (stream : Substream) :
    (handle_event env st (.newInboundSubstream node_id protocol stream)).1 = st ∧
    CMAction.notifyProtocol protocol node_id stream ∈
      (handle_event env st (.newInboundSubstream node_id protocol stream)).2 ∧
    ((handle_event env st (.newInboundSubstream node_id protocol stream)).2.all
      fun a => !a.isPublish) = true ∧
    (env.protocol_notify_ok protocol = false →
      handle_event env st (.newInboundSubstream node_id protocol stream) =
        (st, [CMAction.notifyProtocol protocol node_id stream,
              CMAction.logError "Error sending NewSubstream notification"])) := by
  by_cases h : env.protocol_notify_ok protocol <;>
    simp [handle_event, h, CMAction.isPublish]

/-- Witness for C6 in the environment whose protocol registry has no handler
for protocol 2. -/
theorem C6_inbound_substream_dispatch_witness :
    (handle_event envDialerGone stBound (.newInboundSubstream 1 2 3)).1 = stBound ∧
    CMAction.notifyProtocol 2 1 3 ∈
      (handle_event envDialerGone stBound (.newInboundSubstream 1 2 3)).2 ∧
    ((handle_event envDialerGone stBound (.newInboundSubstream 1 2 3)).2.all
      fun a => !a.isPublish) = true ∧
    (envDialerGone.protocol_notify_ok 2 = false →
      handle_event envDialerGone stBound (.newInboundSubstream 1 2 3) =
        (stBound, [CMAction.notifyProtocol 2 1 3,
                   CMAction.logError "Error sending NewSubstream notification"])) :=
  C6_inbound_substream_dispatch envDialerGone stBound 1 2 3

/-- C7: every internal event other than `NewInboundSubstream` is republished
on the external broadcast channel, and the result of the broadcast send is
discarded — publication with zero subscribers (where the send itself errors)
is not an error for the manager. -/
theorem C7_events_republished (env : Env) (st : CMState)
    (event : ConnectionManagerEvent) (h : event.isSubstream = false) :
    handle_event env st event = (st, [CMAction.publishExternal event]) ∧
    publish_event env event = [CMAction.publishExternal event] ∧
    broadcast_send 0 = .error () := by
  cases event <;>
    simp_all [handle_event, publish_event, broadcast_send,
      ConnectionManagerEvent.isSubstream]

/-- Witness for C7: a `PeerDisconnected` event in an environment with zero
broadcast subscribers is still republished, and handling returns normally. -/
theorem C7_events_republished_witness :
    handle_event envDialerGone stBound (.peerDisconnected 5) =
      (stBound, [CMAction.publishExternal (.peerDisconnected 5)]) ∧
    publish_event envDialerGone (.peerDisconnected 5) =
      [CMAction.publishExternal (.peerDisconnected 5)] ∧
    broadcast_send 0 = .error () :=
  C7_events_republished envDialerGone stBound (.peerDisconnected 5) rfl

/-- C9: the default `ConnectionManagerConfig` has `max_dial_attempts = 3`,
`max_simultaneous_inbound_connects = 20`, `allow_test_addresses = false`,
`time_to_first_byte` of 7 seconds, `liveness_max_sessions = 0`, a liveness
CIDR allowlist of exactly `127.0.0.1/32`, and no auxiliary listener
address. -/
theorem C9_default_config :
    ConnectionManagerConfig.default.max_dial_attempts = 3 ∧
    ConnectionManagerConfig.default.max_simultaneous_inbound_connects = 20 ∧
    ConnectionManagerConfig.default.allow_test_addresses = false ∧
    ConnectionManagerConfig.default.time_to_first_byte = 7 ∧
    ConnectionManagerConfig.default.liveness_max_sessions = 0 ∧
    ConnectionManagerConfig.default.liveness_cidr_allowlist = ["127.0.0.1/32"] ∧
    ConnectionManagerConfig.default.auxilary_tcp_listener_address = none :=
  ⟨rfl, rfl, rfl, rfl, rfl, rfl, rfl⟩

/-- Modelled from the spec clauses (a)-(e) of `run()`: the prescribed startup
action order — primary bind, auxiliary bind when configured, Dialer start,
resolution of every queued NotifyListening reply with the bound address(es),
then loop entry. -/
def spec_startup_actions (st : CMState) (addr : Multiaddr)
    (aux_addr : Option Multiaddr) : List CMAction :=
  [CMAction.primaryBound addr] ++
  (match aux_addr with
   | some a => [CMAction.auxBound a]
   | none => []) ++
  [CMAction.dialerStarted] ++
  (st.listening_notifiers.map fun r =>
    CMAction.sendListenerReply r { bind_address := addr, aux_bind_address := aux_addr }) ++
  [CMAction.loopEntered]

/-- The select loop ignores everything after the first shutdown signal: the
loop breaks there and `run` returns. -/
theorem run_loop_stops_at_shutdown (env : Env) (pre post : List LoopInput)
    (h : LoopInput.shutdown ∉ pre) (s : CMState) :
    run_loop env s (pre ++ LoopInput.shutdown :: post) = run_loop env s pre := by
  induction pre generalizing s with
  | nil => simp [run_loop]
  | cons i rest ih =>
      have hrest : LoopInput.shutdown ∉ rest := fun hm => h (List.mem_cons_of_mem _ hm)
      cases i with
      | shutdown => exact absurd (List.mem_cons_self _ _) h
      | internalEvent e => simp [run_loop, ih hrest]
      | request r => simp [run_loop, ih hrest]

/-- C8: `run` performs its startup steps in order — primary bind, auxiliary
bind when configured, Dialer start, resolution of the queued NotifyListening
replies with the bound address(es), loop entry — and the select loop then
processes events and requests until the shutdown signal, which makes `run`
return, ignoring all later inputs. -/
theorem C8_run_startup_order (env : Env) (st : CMState) (inputs : List LoopInput)
    (addr aux_addr : Multiaddr) :
    (env.primary_listen = .ok addr → st.aux_listener = none →
      run env st inputs =
        ((run_loop env
            { st with listener_info := some { bind_address := addr, aux_bind_address := none },
                      listening_notifiers := [] } inputs).1,
         spec_startup_actions st addr none ++
         (run_loop env
            { st with listener_info := some { bind_address := addr, aux_bind_address := none },
                      listening_notifiers := [] } inputs).2)) ∧
    (env.primary_listen = .ok addr → st.aux_listener = some () →
      env.aux_listen = .ok aux_addr →
      run env st inputs =
        ((run_loop env
            { st with listener_info :=
                        some { bind_address := addr, aux_bind_address := some aux_addr },
                      listening_notifiers := [] } inputs).1,
         spec_startup_actions st addr (some aux_addr) ++
         (run_loop env
            { st with listener_info :=
                        some { bind_address := addr, aux_bind_address := some aux_addr },
                      listening_notifiers := [] } inputs).2)) ∧
    (∀ pre post, LoopInput.shutdown ∉ pre → ∀ s,
      run_loop env s (pre ++ LoopInput.shutdown :: post) = run_loop env s pre) := by
  refine ⟨fun hp ha => ?_, fun hp ha he => ?_,
    fun pre post hpre s => run_loop_stops_at_shutdown env pre post hpre s⟩
  · simp [run, run_listeners, hp, ha, notify_all_ready, run_dialer,
      spec_startup_actions]
  · simp [run, run_listeners, hp, ha, he, notify_all_ready, run_dialer,
      spec_startup_actions]

/-- Witness for C8 at a concrete environment, a state with two queued
notifiers and no auxiliary listener, and an input list that hits shutdown. -/
theorem C8_run_startup_order_witness :
    run envOk stTwoNotifiers
        [.request (.cancelDial 5), .shutdown, .request (.dialPeer 9 3)] =
      ((run_loop envOk
          { stTwoNotifiers with
              listener_info :=
                some { bind_address := "/ip4/0.0.0.0/tcp/7898", aux_bind_address := none },
              listening_notifiers := [] }
          [.request (.cancelDial 5), .shutdown, .request (.dialPeer 9 3)]).1,
       spec_startup_actions stTwoNotifiers "/ip4/0.0.0.0/tcp/7898" none ++
       (run_loop envOk
          { stTwoNotifiers with
              listener_info :=
                some { bind_address := "/ip4/0.0.0.0/tcp/7898", aux_bind_address := none },
              listening_notifiers := [] }
          [.request (.cancelDial 5), .shutdown, .request (.dialPeer 9 3)]).2) :=
  (C8_run_startup_order envOk stTwoNotifiers
      [.request (.cancelDial 5), .shutdown, .request (.dialPeer 9 3)]
      "/ip4/0.0.0.0/tcp/7898" "/ip4/127.0.0.1/tcp/9099").1 rfl rfl

/-- Handling an internal event never changes the orchestration state. -/
theorem handle_event_state_unchanged (env : Env) (st : CMState)
    (e : ConnectionManagerEvent) : (handle_event env st e).1 = st := by
  cases e <;> simp [handle_event, publish_event, apply_ite]

/-- Handling a request never changes `listener_info`. -/
theorem handle_request_listener_info (env : Env) (st : CMState)
    (r : ConnectionManagerRequest) :
    ((handle_request env st r).1).listener_info = st.listener_info := by
  cases r with
  | dialPeer n rp =>
      simp only [handle_request, dial_peer]
      cases hf : env.find_by_node_id n <;> simp [hf]
  | cancelDial n => by_cases h : env.dialer_send_ok <;> simp [handle_request, h]
  | notifyListening rp =>
      cases h : st.listener_info <;> simp [handle_request, h]

/-- Every state at a select-loop iteration head has the `listener_info` the
loop was entered with. -/
theorem run_loop_states_listener_info (env : Env) (inputs : List LoopInput) :
    ∀ st : CMState, ∀ s ∈ run_loop_states env st inputs,
      s.listener_info = st.listener_info := by
  induction inputs with
  | nil => intro st s hs; simp [run_loop_states] at hs; rw [hs]
  | cons i rest ih =>
      intro st s hs
      cases i with
      | shutdown => simp [run_loop_states] at hs; rw [hs]
      | internalEvent e =>
          simp only [run_loop_states, List.mem_cons] at hs
          rcases hs with h | h
          · rw [h]
          · rw [ih _ s h, handle_event_state_unchanged]
      | request r =>
          simp only [run_loop_states, List.mem_cons] at hs
          rcases hs with h | h
          · rw [h]
          · rw [ih _ s h, handle_request_listener_info]

/-- C10: once `run` has entered its select loop (after `run_listeners`
succeeded with some `ListenerInfo`), every reachable loop state still carries
that `listener_info`, so every `NotifyListening` request is answered
immediately with it and the queueing branch is unreachable after startup. -/
theorem C10_loop_listener_info_invariant (env : Env) (st : CMState)
    (inputs : List LoopInput) (info : ListenerInfo) (bind_actions : List CMAction)
    (h : run_listeners env st = .ok (info, bind_actions)) :
    (run env st inputs).1 =
      (run_loop env
        { st with listener_info := some info, listening_notifiers := [] } inputs).1 ∧
    ∀ s ∈ run_loop_states env
        { st with listener_info := some info, listening_notifiers := [] } inputs,
      s.listener_info = some info ∧
      ∀ r, handle_request env s (.notifyListening r) =
        (s, [CMAction.sendListenerReply r info]) := by
  constructor
  · simp [run, h, notify_all_ready]
  · intro s hs
    have hinfo : s.listener_info = some info := by
      have hx := run_loop_states_listener_info env inputs _ s hs
      simpa using hx
    exact ⟨hinfo, fun r => by simp [handle_request, hinfo]⟩

/-- The loop-entry state used by the C10 witness. -/
def stLoopEntry : CMState :=
  { listener_info := some infoSample, listening_notifiers := [], aux_listener := none }

/-- Witness for C10: after a successful bind from `stTwoNotifiers`, the
loop-entry state is reachable and a `NotifyListening` there is answered
immediately. -/
theorem C10_loop_listener_info_invariant_witness :
    handle_request envOk stLoopEntry (.notifyListening 7) =
      (stLoopEntry, [CMAction.sendListenerReply 7 infoSample]) :=
  ((C10_loop_listener_info_invariant envOk stTwoNotifiers [] infoSample
      [CMAction.primaryBound "/ip4/0.0.0.0/tcp/7898"] rfl).2
    stLoopEntry (by simp [run_loop_states, stLoopEntry, stTwoNotifiers, infoSample])).2 7
